import Mathlib

/-
Verification of the eye-care gamma/reminder engine (src/eye_care.py).

The Python source is shallowly embedded: the color-temperature model and the
gamma-ramp construction become real-valued functions (Python floats are
modelled as real numbers, Python int() as truncation toward zero), the
gamma controller becomes an explicit state-passing operation, and the
reminder loop body becomes a one-tick transition function on the shared
configuration and timestamp state.
-/

/-! ## Python primitives -/

/-- Python `int(x)` on a float: truncation toward zero. -/
noncomputable def truncI (x : ℝ) : ℤ := if 0 ≤ x then ⌊x⌋ else -⌊-x⌋

lemma truncI_of_nonneg {x : ℝ} (h : 0 ≤ x) : truncI x = ⌊x⌋ := by
  unfold truncI
  exact if_pos h

lemma truncI_intCast (n : ℤ) : truncI (n : ℝ) = n := by
  unfold truncI
  by_cases h : (0 : ℝ) ≤ (n : ℝ)
  · rw [if_pos h, Int.floor_intCast]
  · rw [if_neg h, ← Int.cast_neg, Int.floor_intCast, neg_neg]

lemma truncI_zero : truncI 0 = 0 := by
  rw [truncI_of_nonneg le_rfl, Int.floor_zero]

/-! ## Power-function bounds

The color formulas use the real power `x ^ (0.1 : ℝ)` (and negative
exponents for temperatures above 6600K).  The bounds below reduce a bound
on a real tenth (or eighth) root to a rational inequality norm_num can
check. -/

lemma rpow_tenth_lt {a b : ℝ} (ha : 0 ≤ a) (hb : 0 < b)
    (h : a < b ^ (10 : ℕ)) : a ^ (0.1 : ℝ) < b := by
  by_contra hc
  push_neg at hc
  have key : (a ^ (0.1 : ℝ)) ^ (10 : ℕ) = a := by
    rw [← Real.rpow_natCast (a ^ (0.1 : ℝ)) 10, ← Real.rpow_mul ha]
    norm_num
  have hpow : b ^ (10 : ℕ) ≤ (a ^ (0.1 : ℝ)) ^ (10 : ℕ) :=
    pow_le_pow_left₀ hb.le hc 10
  rw [key] at hpow
  linarith

lemma lt_rpow_eighth {a b : ℝ} (ha : 0 ≤ a)
    (h : b ^ (8 : ℕ) < a) : b < a ^ ((1 : ℝ) / 8) := by
  by_contra hc
  push_neg at hc
  have key : (a ^ ((1 : ℝ) / 8)) ^ (8 : ℕ) = a := by
    rw [← Real.rpow_natCast (a ^ ((1 : ℝ) / 8)) 8, ← Real.rpow_mul ha]
    norm_num
  have hpow : (a ^ ((1 : ℝ) / 8)) ^ (8 : ℕ) ≤ b ^ (8 : ℕ) :=
    pow_le_pow_left₀ (Real.rpow_nonneg ha _) hc 8
  rw [key] at hpow
  linarith

/-! ## GammaController._kelvin_to_rgb

Translated clause by clause from lines 43-77 of the source.  The three
channel values are computed from `temp = kelvin / 100`; the red clamp sits
inside the `else` branch, the green and blue clamps apply to every branch,
exactly as in the Python. -/

noncomputable def red_channel (temp : ℝ) : ℝ :=
  if temp ≤ 66 then 255
  else max 0 (min 255 (329.698727446 * (temp - 60) ^ (-0.1332047592 : ℝ)))

noncomputable def green_channel (temp : ℝ) : ℝ :=
  max 0 (min 255
    (if temp ≤ 66 then
      (if 1 < temp then 99.4708025861 * temp ^ (0.1 : ℝ) - 161.1195681661 else 0)
    else 288.1221695283 * (temp - 60) ^ (-0.0755148492 : ℝ)))

noncomputable def blue_channel (temp : ℝ) : ℝ :=
  max 0 (min 255
    (if 66 ≤ temp then 255
    else if temp ≤ 19 then 0
    else if 0 < temp - 10 then
      138.5177312231 * (temp - 10) ^ (0.1 : ℝ) - 305.0447927307
    else 0))

noncomputable def kelvin_to_rgb (kelvin : ℝ) : ℝ × ℝ × ℝ :=
  (red_channel (kelvin / 100) / 255,
   green_channel (kelvin / 100) / 255,
   blue_channel (kelvin / 100) / 255)

/-- GammaController._calculate_luminance (lines 79-81). -/
noncomputable def calculate_luminance (r g b : ℝ) : ℝ :=
  0.2126 * r + 0.7152 * g + 0.0722 * b

/-! ## Channel values at key temperatures -/

lemma pow_tenth_65_lt : (65 : ℝ) ^ (0.1 : ℝ) < 1.61 :=
  rpow_tenth_lt (by norm_num) (by norm_num) (by norm_num)

lemma pow_tenth_55_lt : (55 : ℝ) ^ (0.1 : ℝ) < 1.6 :=
  rpow_tenth_lt (by norm_num) (by norm_num) (by norm_num)

lemma pow_tenth_10_lt : (10 : ℝ) ^ (0.1 : ℝ) < 1.3 :=
  rpow_tenth_lt (by norm_num) (by norm_num) (by norm_num)

lemma red_channel_at_65 : red_channel 65 = 255 := by
  unfold red_channel
  rw [if_pos (by norm_num : (65 : ℝ) ≤ 66)]

lemma green_channel_at_65 : green_channel 65 = 0 := by
  unfold green_channel
  rw [if_pos (by norm_num : (65 : ℝ) ≤ 66), if_pos (by norm_num : (1 : ℝ) < 65)]
  have h := pow_tenth_65_lt
  have hle : (0 : ℝ) ≤ (65 : ℝ) ^ (0.1 : ℝ) := Real.rpow_nonneg (by norm_num) _
  have hneg : 99.4708025861 * (65 : ℝ) ^ (0.1 : ℝ) - 161.1195681661 < 0 := by
    nlinarith
  rw [min_eq_right (by linarith : 99.4708025861 * (65 : ℝ) ^ (0.1 : ℝ) - 161.1195681661 ≤ 255)]
  exact max_eq_left hneg.le

lemma blue_channel_at_65 : blue_channel 65 = 0 := by
  unfold blue_channel
  rw [if_neg (by norm_num : ¬ (66 : ℝ) ≤ 65), if_neg (by norm_num : ¬ (65 : ℝ) ≤ 19),
    if_pos (by norm_num : (0 : ℝ) < 65 - 10)]
  have h55 : ((65 : ℝ) - 10) = 55 := by norm_num
  rw [h55]
  have h := pow_tenth_55_lt
  have hle : (0 : ℝ) ≤ (55 : ℝ) ^ (0.1 : ℝ) := Real.rpow_nonneg (by norm_num) _
  have hneg : 138.5177312231 * (55 : ℝ) ^ (0.1 : ℝ) - 305.0447927307 < 0 := by
    nlinarith
  rw [min_eq_right (by linarith : 138.5177312231 * (55 : ℝ) ^ (0.1 : ℝ) - 305.0447927307 ≤ 255)]
  exact max_eq_left hneg.le

/-- What the code actually returns at 6500K: pure red. -/
lemma kelvin_to_rgb_at_6500 : kelvin_to_rgb 6500 = (1, 0, 0) := by
  unfold kelvin_to_rgb
  have h : (6500 : ℝ) / 100 = 65 := by norm_num
  rw [h, red_channel_at_65, green_channel_at_65, blue_channel_at_65]
  norm_num

lemma kelvin_to_rgb_at_1000 : kelvin_to_rgb 1000 = (1, 0, 0) := by
  unfold kelvin_to_rgb
  have h : (1000 : ℝ) / 100 = 10 := by norm_num
  rw [h]
  have hred : red_channel 10 = 255 := by
    unfold red_channel
    rw [if_pos (by norm_num : (10 : ℝ) ≤ 66)]
  have hgreen : green_channel 10 = 0 := by
    unfold green_channel
    rw [if_pos (by norm_num : (10 : ℝ) ≤ 66), if_pos (by norm_num : (1 : ℝ) < 10)]
    have h10 := pow_tenth_10_lt
    have hle : (0 : ℝ) ≤ (10 : ℝ) ^ (0.1 : ℝ) := Real.rpow_nonneg (by norm_num) _
    have hneg : 99.4708025861 * (10 : ℝ) ^ (0.1 : ℝ) - 161.1195681661 < 0 := by
      nlinarith
    rw [min_eq_right (by linarith : 99.4708025861 * (10 : ℝ) ^ (0.1 : ℝ) - 161.1195681661 ≤ 255)]
    exact max_eq_left hneg.le
  have hblue : blue_channel 10 = 0 := by
    unfold blue_channel
    rw [if_neg (by norm_num : ¬ (66 : ℝ) ≤ 10), if_pos (by norm_num : (10 : ℝ) ≤ 19)]
    norm_num
  rw [hred, hgreen, hblue]
  norm_num

/-! ## GammaController.set_gamma (lines 83-132)

The pure part of set_gamma splits into the brightness-compensation
adjustment of the three channel values (lines 98-111) and the construction
of the 256-entry ramp (lines 113-129); the call into the platform
(SetDeviceGammaRamp) is modelled by an external success flag. -/

/-- Lines 98-111: when compensation is requested and the temperature is
strictly below 6500, and the perceived luminance of the raw channel values
is strictly positive, every channel is scaled by
min(1.5, base_luminance / current_luminance) and capped at 1.0. -/
noncomputable def compensated (temperature : ℝ) (compensate : Bool) : ℝ × ℝ × ℝ :=
  let p := kelvin_to_rgb temperature
  if compensate = true ∧ temperature < 6500 then
    let current := calculate_luminance p.1 p.2.1 p.2.2
    let base := calculate_luminance 1 1 1
    if 0 < current then
      let comp := min 1.5 (base / current)
      (min 1 (p.1 * comp), min 1 (p.2.1 * comp), min 1 (p.2.2 * comp))
    else p
  else p

/-- Lines 119-129: one ramp entry.  base = int(i * 256 * brightness / 100),
entry = min(65535, max(0, int(base * channel))). -/
noncomputable def ramp_base (brightness : ℤ) (i : ℕ) : ℤ :=
  truncI (((i : ℝ) * 256) * ((brightness : ℝ) / 100))

noncomputable def ramp_entry (chan : ℝ) (brightness : ℤ) (i : ℕ) : ℤ :=
  min 65535 (max 0 (truncI ((ramp_base brightness i : ℝ) * chan)))

/-- The full 256-entry-per-channel ramp a set_gamma request constructs. -/
noncomputable def set_gamma_ramp (temperature : ℝ) (brightness : ℤ)
    (compensate : Bool) : (ℕ → ℤ) × (ℕ → ℤ) × (ℕ → ℤ) :=
  let q := compensated temperature compensate
  (fun i => ramp_entry q.1 brightness i,
   fun i => ramp_entry q.2.1 brightness i,
   fun i => ramp_entry q.2.2 brightness i)

/-- GammaController state: the platform-support flag set in __init__
(lines 33-41) and the ramp last installed on the display. -/
structure GammaController where
  supported : Bool
  installedRamp : Option ((ℕ → ℤ) × (ℕ → ℤ) × (ℕ → ℤ))

/-- set_gamma as a state operation.  `sinkOk` models the return value of
the platform call SetDeviceGammaRamp (line 131).  When the platform is
unsupported the operation returns False at once (lines 92-93) and touches
nothing. -/
noncomputable def set_gamma (ctrl : GammaController) (temperature : ℝ)
    (brightness : ℤ) (compensate : Bool) (sinkOk : Bool) :
    Bool × GammaController :=
  if ctrl.supported = true then
    let ramp := set_gamma_ramp temperature brightness compensate
    if sinkOk = true then (true, { ctrl with installedRamp := some ramp })
    else (false, ctrl)
  else (false, ctrl)

/-- restore_default (lines 134-136): set_gamma(6500, 100, compensate_brightness=False). -/
noncomputable def restore_default (ctrl : GammaController) (sinkOk : Bool) :
    Bool × GammaController :=
  set_gamma ctrl 6500 100 false sinkOk

/-- cleanup (lines 138-143): restores the default ramp only when supported. -/
noncomputable def cleanup (ctrl : GammaController) (sinkOk : Bool) : GammaController :=
  if ctrl.supported = true then (restore_default ctrl sinkOk).2 else ctrl

/-! ## The reminder loop (EyeCareApp.start_reminder_thread, lines 382-395)

One iteration of the loop body, at a single tick timestamp `now`: when the
reminder is enabled and `now - last_reminder` has reached
`reminder_interval * 60` seconds, one reminder event fires and
last_reminder is reset to `now`.  Timestamps are rationals (seconds). -/

structure AppConfig where
  reminder_enabled : Bool
  reminder_interval : ℤ
  deriving DecidableEq

structure AppState where
  running : Bool
  config : AppConfig
  last_reminder : ℚ
  deriving DecidableEq

/-- One tick of the reminder loop: the new last_reminder value and whether
a reminder event fired on this tick. -/
def reminder_tick (cfg : AppConfig) (last now : ℚ) : ℚ × Bool :=
  if cfg.reminder_enabled = true then
    if (cfg.reminder_interval : ℚ) * 60 ≤ now - last then (now, true)
    else (last, false)
  else (last, false)

/-- The countdown value `left` computed by update_remind_label (line 401). -/
def remind_left (cfg : AppConfig) (last now : ℚ) : ℚ :=
  (cfg.reminder_interval : ℚ) * 60 - (now - last)

/-- save_config (lines 518-527) as it affects the reminder machinery: the
UI writes the reminder flag and interval into the shared config.  It never
touches last_reminder. -/
def save_config (s : AppState) (enabled : Bool) (intervalMinutes : ℤ) : AppState :=
  { s with config := { reminder_enabled := enabled, reminder_interval := intervalMinutes } }

/-! ## The spec formulas for green and blue (natural-logarithm form)

The spec (section 4.1) and the algorithm the docstring on lines 44-47
cites both use the natural logarithm; named here for comparison with the
code, which raises to the power 0.1 instead. -/

/-- Per the spec sentence: green for 1 < t <= 66 is
99.4708025861 * ln(t) - 161.1195681661 (before clamping). -/
noncomputable def specGreenLn (t : ℝ) : ℝ :=
  99.4708025861 * Real.log t - 161.1195681661

/-- Per the spec sentence: blue for 19 < t < 66 is
138.5177312231 * ln(t - 10) - 305.0447927307 (before clamping). -/
noncomputable def specBlueLn (t : ℝ) : ℝ :=
  138.5177312231 * Real.log (t - 10) - 305.0447927307

/-! ## Ramp-construction lemmas -/

lemma compensated_false (temperature : ℝ) :
    compensated temperature false = kelvin_to_rgb temperature := by
  unfold compensated
  rw [if_neg]
  intro h
  exact Bool.false_ne_true h.1

lemma ramp_base_nonneg {brightness : ℤ} (hb : 0 ≤ brightness) (i : ℕ) :
    0 ≤ ramp_base brightness i := by
  unfold ramp_base
  have hx : (0 : ℝ) ≤ ((i : ℝ) * 256) * ((brightness : ℝ) / 100) := by
    have : (0 : ℝ) ≤ (brightness : ℝ) := by exact_mod_cast hb
    positivity
  rw [truncI_of_nonneg hx]
  exact Int.floor_nonneg.mpr hx

lemma ramp_base_mono {brightness : ℤ} (hb : 0 ≤ brightness) {i j : ℕ} (hij : i ≤ j) :
    ramp_base brightness i ≤ ramp_base brightness j := by
  unfold ramp_base
  have hbr : (0 : ℝ) ≤ (brightness : ℝ) / 100 := by
    have : (0 : ℝ) ≤ (brightness : ℝ) := by exact_mod_cast hb
    positivity
  have hxi : (0 : ℝ) ≤ ((i : ℝ) * 256) * ((brightness : ℝ) / 100) := by positivity
  have harg : ((i : ℝ) * 256) * ((brightness : ℝ) / 100)
      ≤ ((j : ℝ) * 256) * ((brightness : ℝ) / 100) := by
    have hcast : (i : ℝ) ≤ (j : ℝ) := Nat.cast_le.mpr hij
    have h256 : (i : ℝ) * 256 ≤ (j : ℝ) * 256 := by linarith
    exact mul_le_mul_of_nonneg_right h256 hbr
  rw [truncI_of_nonneg hxi, truncI_of_nonneg (le_trans hxi harg)]
  exact Int.floor_le_floor harg

lemma ramp_entry_mono (chan : ℝ) (h0 : 0 ≤ chan) {brightness : ℤ}
    (hb : 0 ≤ brightness) {i j : ℕ} (hij : i ≤ j) :
    ramp_entry chan brightness i ≤ ramp_entry chan brightness j := by
  unfold ramp_entry
  have hbase := ramp_base_mono hb hij
  have hbi : (0 : ℝ) ≤ (ramp_base brightness i : ℝ) := by
    exact_mod_cast ramp_base_nonneg hb i
  have hmul : (ramp_base brightness i : ℝ) * chan
      ≤ (ramp_base brightness j : ℝ) * chan := by
    have : (ramp_base brightness i : ℝ) ≤ (ramp_base brightness j : ℝ) := by
      exact_mod_cast hbase
    exact mul_le_mul_of_nonneg_right this h0
  have hnn : (0 : ℝ) ≤ (ramp_base brightness i : ℝ) * chan := mul_nonneg hbi h0
  have htr : truncI ((ramp_base brightness i : ℝ) * chan)
      ≤ truncI ((ramp_base brightness j : ℝ) * chan) := by
    rw [truncI_of_nonneg hnn, truncI_of_nonneg (le_trans hnn hmul)]
    exact Int.floor_le_floor hmul
  exact min_le_min le_rfl (max_le_max le_rfl htr)

lemma ramp_entry_zero_index (chan : ℝ) (brightness : ℤ) :
    ramp_entry chan brightness 0 = 0 := by
  unfold ramp_entry ramp_base
  have h0 : ((0 : ℕ) : ℝ) * 256 * ((brightness : ℝ) / 100) = 0 := by
    norm_num
  rw [h0, truncI_zero]
  have h1 : (((0 : ℤ) : ℝ)) * chan = 0 := by norm_num
  rw [h1, truncI_zero]
  norm_num

lemma ramp_entry_bounds (chan : ℝ) (brightness : ℤ) (i : ℕ) :
    0 ≤ ramp_entry chan brightness i ∧ ramp_entry chan brightness i ≤ 65535 := by
  unfold ramp_entry
  constructor
  · exact le_min (by norm_num) (le_max_left 0 _)
  · exact min_le_left _ _

lemma ramp_base_100 (i : ℕ) : ramp_base 100 i = (i : ℤ) * 256 := by
  unfold ramp_base
  have h : ((i : ℝ) * 256) * (((100 : ℤ) : ℝ) / 100) = (((i : ℤ) * 256 : ℤ) : ℝ) := by
    push_cast
    ring
  rw [h, truncI_intCast]

lemma ramp_entry_one_100 (i : ℕ) (hi : i ≤ 255) :
    ramp_entry 1 100 i = (i : ℤ) * 256 := by
  unfold ramp_entry
  rw [ramp_base_100, mul_one, truncI_intCast]
  have hnn : (0 : ℤ) ≤ (i : ℤ) * 256 := by positivity
  rw [max_eq_right hnn]
  have hle : (i : ℤ) * 256 ≤ 65535 := by
    have : (i : ℤ) ≤ 255 := by exact_mod_cast hi
    linarith
  exact min_eq_right hle

lemma ramp_entry_zero_chan (brightness : ℤ) (i : ℕ) :
    ramp_entry 0 brightness i = 0 := by
  unfold ramp_entry
  rw [mul_zero, truncI_zero]
  norm_num

/-! ## Red channel above 6600K: no clamping of the kelvin input

`_kelvin_to_rgb` never clamps its argument to [1000, 40000]; the red
value at 50000K (temp 500) genuinely differs from the red value at the
clamped 40000K (temp 400). -/

lemma pow_c_gt_340 : (1.293 : ℝ) < (340 : ℝ) ^ (0.1332047592 : ℝ) := by
  have h8 : (1.293 : ℝ) < (340 : ℝ) ^ ((1 : ℝ) / 8) :=
    lt_rpow_eighth (by norm_num) (by norm_num)
  have hmono : (340 : ℝ) ^ ((1 : ℝ) / 8) ≤ (340 : ℝ) ^ (0.1332047592 : ℝ) :=
    Real.rpow_le_rpow_of_exponent_le (by norm_num) (by norm_num)
  linarith

lemma pow_c_gt_440 : (1.293 : ℝ) < (440 : ℝ) ^ (0.1332047592 : ℝ) := by
  have h8 : (1.293 : ℝ) < (440 : ℝ) ^ ((1 : ℝ) / 8) :=
    lt_rpow_eighth (by norm_num) (by norm_num)
  have hmono : (440 : ℝ) ^ ((1 : ℝ) / 8) ≤ (440 : ℝ) ^ (0.1332047592 : ℝ) :=
    Real.rpow_le_rpow_of_exponent_le (by norm_num) (by norm_num)
  linarith

lemma red_raw_lt_255 {x : ℝ} (hx : 0 < x)
    (hgt : (1.293 : ℝ) < x ^ (0.1332047592 : ℝ)) :
    329.698727446 * x ^ (-0.1332047592 : ℝ) < 255 := by
  have hpos : 0 < x ^ (0.1332047592 : ℝ) := Real.rpow_pos_of_pos hx _
  rw [Real.rpow_neg hx.le]
  have hinv : (x ^ (0.1332047592 : ℝ))⁻¹ < (1.293 : ℝ)⁻¹ :=
    inv_strictAnti₀ (by norm_num) hgt
  have hnn : (0 : ℝ) ≤ (x ^ (0.1332047592 : ℝ))⁻¹ := by positivity
  nlinarith

lemma red_raw_pos {x : ℝ} (hx : 0 < x) :
    0 < 329.698727446 * x ^ (-0.1332047592 : ℝ) := by
  have := Real.rpow_pos_of_pos hx (-0.1332047592 : ℝ)
  nlinarith

lemma red_channel_500_lt_400 : red_channel 500 < red_channel 400 := by
  unfold red_channel
  rw [if_neg (by norm_num : ¬ (500 : ℝ) ≤ 66), if_neg (by norm_num : ¬ (400 : ℝ) ≤ 66)]
  have h440 : (500 : ℝ) - 60 = 440 := by norm_num
  have h340 : (400 : ℝ) - 60 = 340 := by norm_num
  rw [h440, h340]
  have hraw : (440 : ℝ) ^ (-0.1332047592 : ℝ) < (340 : ℝ) ^ (-0.1332047592 : ℝ) :=
    Real.rpow_lt_rpow_of_exponent_neg (by norm_num) (by norm_num) (by norm_num)
  have hlt : 329.698727446 * (440 : ℝ) ^ (-0.1332047592 : ℝ)
      < 329.698727446 * (340 : ℝ) ^ (-0.1332047592 : ℝ) := by nlinarith
  have h440pos := red_raw_pos (show (0 : ℝ) < 440 by norm_num)
  have h340pos := red_raw_pos (show (0 : ℝ) < 340 by norm_num)
  have h440lt := red_raw_lt_255 (show (0 : ℝ) < 440 by norm_num) pow_c_gt_440
  have h340lt := red_raw_lt_255 (show (0 : ℝ) < 340 by norm_num) pow_c_gt_340
  rw [min_eq_right h440lt.le, min_eq_right h340lt.le,
    max_eq_right h440pos.le, max_eq_right h340pos.le]
  exact hlt

lemma kelvin_to_rgb_red_50000_lt_40000 :
    (kelvin_to_rgb 50000).1 < (kelvin_to_rgb 40000).1 := by
  unfold kelvin_to_rgb
  have h1 : (50000 : ℝ) / 100 = 500 := by norm_num
  have h2 : (40000 : ℝ) / 100 = 400 := by norm_num
  rw [h1, h2]
  have := red_channel_500_lt_400
  simp only []
  linarith

/-! ## Logarithm lower bounds for the spec formulas -/

lemma exp_three_lt : Real.exp 3 < 21 := by
  have h : Real.exp 3 = Real.exp 1 ^ (3 : ℕ) := by
    rw [← Real.exp_nat_mul]
    norm_num
  have hlt : Real.exp 1 ^ (3 : ℕ) < (2.7182818286 : ℝ) ^ (3 : ℕ) :=
    pow_lt_pow_left₀ Real.exp_one_lt_d9 (Real.exp_pos 1).le (by norm_num)
  have hnum : (2.7182818286 : ℝ) ^ (3 : ℕ) < 21 := by norm_num
  linarith

lemma log_65_gt_3 : (3 : ℝ) < Real.log 65 := by
  rw [Real.lt_log_iff_exp_lt (by norm_num : (0 : ℝ) < 65)]
  have := exp_three_lt
  linarith

lemma log_55_gt_3 : (3 : ℝ) < Real.log 55 := by
  rw [Real.lt_log_iff_exp_lt (by norm_num : (0 : ℝ) < 55)]
  have := exp_three_lt
  linarith

lemma specGreenLn_65_pos : 0 < specGreenLn 65 := by
  unfold specGreenLn
  have := log_65_gt_3
  nlinarith

lemma specBlueLn_65_pos : 0 < specBlueLn 65 := by
  unfold specBlueLn
  have h : (65 : ℝ) - 10 = 55 := by norm_num
  rw [h]
  have := log_55_gt_3
  nlinarith

/-! ## The ramp of a 6500K request -/

lemma calculate_luminance_one : calculate_luminance 1 1 1 = 1 := by
  unfold calculate_luminance
  norm_num

lemma set_gamma_ramp_6500_b (b : ℤ) :
    set_gamma_ramp 6500 b false =
      (fun i => ramp_entry 1 b i, fun i => ramp_entry 0 b i, fun i => ramp_entry 0 b i) := by
  unfold set_gamma_ramp
  rw [compensated_false, kelvin_to_rgb_at_6500]

lemma ramp_base_200_at_1 : ramp_base 200 1 = 512 := by
  unfold ramp_base
  have h : (((1 : ℕ) : ℝ) * 256) * (((200 : ℤ) : ℝ) / 100) = (((512 : ℤ)) : ℝ) := by
    push_cast
    norm_num
  rw [h, truncI_intCast]

lemma ramp_entry_one_200_at_1 : ramp_entry 1 200 1 = 512 := by
  unfold ramp_entry
  rw [ramp_base_200_at_1, mul_one, truncI_intCast]
  norm_num

/-! ## Claim theorems -/

/-- Claim C1 (counterexample): kelvinToRgb applied to 6500 does not return
the ratio (1.0, 1.0, 1.0): the code computes green with the power 0.1 in
place of the natural logarithm, so green and blue clamp to 0. -/
theorem C1_counterexample : kelvin_to_rgb 6500 ≠ (1, 1, 1) := by
  rw [kelvin_to_rgb_at_6500]
  intro h
  have h2 : (0 : ℝ) = 1 := congrArg (fun t => t.2.1) h
  norm_num at h2

/-- Claim C1 (amended): kelvinToRgb applied to 6500 returns exactly
(1.0, 0.0, 0.0): red is 1.0, while the green and blue formulas evaluate
negative and clamp to 0. -/
theorem C1_amended : kelvin_to_rgb 6500 = (1, 0, 0) := kelvin_to_rgb_at_6500

/-- Claim C2: at kelvin 6500 (t = 65) the code clamps green and blue to 0,
while the natural-logarithm formulas the claim states are strictly
positive there: the code computes `t ** 0.1` where the algorithm its
docstring cites uses ln(t). -/
theorem C2_code_vs_spec :
    green_channel 65 = 0 ∧ blue_channel 65 = 0 ∧
    0 < specGreenLn 65 ∧ 0 < specBlueLn 65 :=
  ⟨green_channel_at_65, blue_channel_at_65, specGreenLn_65_pos, specBlueLn_65_pos⟩

/-- Claim C3 (counterexample): the red entry at index 1 of the ramp built
for a (6500, 100, no-compensation) request is 256, not 257 as the claimed
identity formula entry[i] = i * 257 states. -/
theorem C3_counterexample : (set_gamma_ramp 6500 100 false).1 1 ≠ 257 := by
  rw [set_gamma_ramp_6500_b]
  show ramp_entry 1 100 1 ≠ 257
  rw [ramp_entry_one_100 1 (by norm_num)]
  norm_num

/-- Claim C3 (amended): a (6500, 100, no-compensation) request yields the
ramp with red entry i * 256 for every index i in [0, 255] and green and
blue entries 0 (the computed green and blue ratios at 6500K are 0), and
restore_default issues exactly that request, so it produces the same ramp
entry for entry on every channel. -/
theorem C3_amended (i : ℕ) (hi : i ≤ 255) :
    ((set_gamma_ramp 6500 100 false).1 i = (i : ℤ) * 256 ∧
     (set_gamma_ramp 6500 100 false).2.1 i = 0 ∧
     (set_gamma_ramp 6500 100 false).2.2 i = 0) ∧
    ∀ ctrl sinkOk, restore_default ctrl sinkOk = set_gamma ctrl 6500 100 false sinkOk := by
  refine ⟨⟨?_, ?_, ?_⟩, fun ctrl sinkOk => rfl⟩
  · rw [set_gamma_ramp_6500_b]
    exact ramp_entry_one_100 i hi
  · rw [set_gamma_ramp_6500_b]
    exact ramp_entry_zero_chan 100 i
  · rw [set_gamma_ramp_6500_b]
    exact ramp_entry_zero_chan 100 i

/-- Claim C3 (witness): the amended statement at index 7. -/
theorem C3_witness :
    ((set_gamma_ramp 6500 100 false).1 7 = ((7 : ℕ) : ℤ) * 256 ∧
     (set_gamma_ramp 6500 100 false).2.1 7 = 0 ∧
     (set_gamma_ramp 6500 100 false).2.2 7 = 0) ∧
    ∀ ctrl sinkOk, restore_default ctrl sinkOk = set_gamma ctrl 6500 100 false sinkOk :=
  C3_amended 7 (by norm_num)

/-- Claim C4: for every channel ratio in [0, 1] and every brightness
percentage, the ramp entries are monotonically non-decreasing in the
index, every entry lies in [0, 65535], and the entry at index 0 is 0. -/
theorem C4_ramp_invariants (chan : ℝ) (h0 : 0 ≤ chan) (h1 : chan ≤ 1)
    (brightness : ℕ) (i j : ℕ) (hij : i ≤ j) (hj : j ≤ 255) :
    ramp_entry chan (brightness : ℤ) i ≤ ramp_entry chan (brightness : ℤ) j ∧
    (0 ≤ ramp_entry chan (brightness : ℤ) i ∧
      ramp_entry chan (brightness : ℤ) i ≤ 65535) ∧
    ramp_entry chan (brightness : ℤ) 0 = 0 :=
  ⟨ramp_entry_mono chan h0 (by positivity) hij,
   ramp_entry_bounds chan (brightness : ℤ) i,
   ramp_entry_zero_index chan (brightness : ℤ)⟩

/-- Claim C4 (witness): the invariants at ratio 1/2, brightness 80,
indices 3 and 5. -/
theorem C4_witness :
    ramp_entry (1 / 2) ((80 : ℕ) : ℤ) 3 ≤ ramp_entry (1 / 2) ((80 : ℕ) : ℤ) 5 ∧
    (0 ≤ ramp_entry (1 / 2) ((80 : ℕ) : ℤ) 3 ∧
      ramp_entry (1 / 2) ((80 : ℕ) : ℤ) 3 ≤ 65535) ∧
    ramp_entry (1 / 2) ((80 : ℕ) : ℤ) 0 = 0 :=
  C4_ramp_invariants (1 / 2) (by norm_num) (by norm_num) 80 3 5 (by norm_num) (by norm_num)

/-- Claim C5 (counterexample): the code does not clamp kelvin to
[1000, 40000]: 50000 clamps to 40000, yet the computed red ratio at
50000K differs from the red ratio at 40000K. -/
theorem C5_counterexample :
    max 1000 (min 40000 (50000 : ℝ)) = 40000 ∧
    (kelvin_to_rgb 50000).1 ≠ (kelvin_to_rgb 40000).1 :=
  ⟨by norm_num, ne_of_lt kelvin_to_rgb_red_50000_lt_40000⟩

/-- Claim C5 (amended): out-of-domain inputs are used as given, neither
clamped nor rejected: the red ratio at 50000K is strictly below the red
ratio at the clamped 40000K, and the ramp built with brightness 200
differs from the one built with brightness clamped to 100 (red entry 512
versus 256 at index 1). -/
theorem C5_amended :
    (kelvin_to_rgb 50000).1 < (kelvin_to_rgb 40000).1 ∧
    (set_gamma_ramp 6500 200 false).1 1 = 512 ∧
    (set_gamma_ramp 6500 100 false).1 1 = 256 := by
  refine ⟨kelvin_to_rgb_red_50000_lt_40000, ?_, ?_⟩
  · rw [set_gamma_ramp_6500_b]
    exact ramp_entry_one_200_at_1
  · rw [set_gamma_ramp_6500_b]
    show ramp_entry 1 100 1 = 256
    rw [ramp_entry_one_100 1 (by norm_num)]
    norm_num

/-- Claim C6: on any tick where the reminder is enabled and the elapsed
time since the last fire has reached the configured interval, the tick
fires exactly one reminder event and resets last_reminder to now, so the
countdown value immediately after the fire is the full interval again. -/
theorem C6_reminder_fires (cfg : AppConfig) (last now : ℚ)
    (hen : cfg.reminder_enabled = true)
    (hdue : (cfg.reminder_interval : ℚ) * 60 ≤ now - last) :
    reminder_tick cfg last now = (now, true) ∧
    remind_left cfg (reminder_tick cfg last now).1 now =
      (cfg.reminder_interval : ℚ) * 60 := by
  have ht : reminder_tick cfg last now = (now, true) := by
    unfold reminder_tick
    rw [if_pos hen, if_pos hdue]
  refine ⟨ht, ?_⟩
  rw [ht]
  unfold remind_left
  ring

/-- Claim C6 (witness): interval 45 minutes, last fire at 0, tick at 2700
seconds. -/
theorem C6_witness :
    reminder_tick { reminder_enabled := true, reminder_interval := 45 } 0 2700
      = (2700, true) ∧
    remind_left { reminder_enabled := true, reminder_interval := 45 }
      (reminder_tick { reminder_enabled := true, reminder_interval := 45 } 0 2700).1 2700
      = (((45 : ℤ) : ℚ)) * 60 :=
  C6_reminder_fires { reminder_enabled := true, reminder_interval := 45 } 0 2700
    rfl (by norm_num)

/-- Claim C7 (counterexample): after reconfiguring the interval from 60
to 30 (minutes) with elapsed time already at 30 minutes (1800 seconds),
the very next tick DOES fire a reminder: the code compares the preserved
elapsed time against the new, smaller interval and fires. -/
theorem C7_counterexample :
    (reminder_tick
      (save_config
        { running := true,
          config := { reminder_enabled := true, reminder_interval := 60 },
          last_reminder := 0 } true 30).config
      (save_config
        { running := true,
          config := { reminder_enabled := true, reminder_interval := 60 },
          last_reminder := 0 } true 30).last_reminder
      1800).2 = true := by
  show (reminder_tick { reminder_enabled := true, reminder_interval := 30 } 0 1800).2 = true
  unfold reminder_tick
  rw [if_pos rfl, if_pos (by norm_num : (((30 : ℤ) : ℚ)) * 60 ≤ 1800 - 0)]

/-- Claim C7 (amended): reconfiguring the reminder interval or toggling
the reminder flag never resets last_reminder (elapsed time is preserved);
on an enabled tick nothing fires while the preserved elapsed time is
still below the current interval, and the tick fires as soon as the
elapsed time reaches the current interval — so shrinking the interval
from 60 to 30 with elapsed time already at least 30 minutes makes the
next tick fire immediately. -/
theorem C7_amended (s : AppState) (e : Bool) (m : ℤ) (cfg : AppConfig)
    (last now : ℚ) (hen : cfg.reminder_enabled = true) :
    (save_config s e m).last_reminder = s.last_reminder ∧
    (now - last < (cfg.reminder_interval : ℚ) * 60 →
      reminder_tick cfg last now = (last, false)) ∧
    ((cfg.reminder_interval : ℚ) * 60 ≤ now - last →
      reminder_tick cfg last now = (now, true)) := by
  refine ⟨rfl, ?_, ?_⟩
  · intro h
    unfold reminder_tick
    rw [if_pos hen, if_neg (not_le.mpr h)]
  · intro h
    unfold reminder_tick
    rw [if_pos hen, if_pos h]

/-- Claim C7 (witness): the amended statement with the interval
reconfigured to 120 minutes and an elapsed time of 3600 seconds. -/
theorem C7_witness :
    (save_config
      { running := true,
        config := { reminder_enabled := true, reminder_interval := 60 },
        last_reminder := 5 } true 120).last_reminder =
      ({ running := true,
         config := { reminder_enabled := true, reminder_interval := 60 },
         last_reminder := 5 } : AppState).last_reminder ∧
    ((3600 : ℚ) - 0 < (((120 : ℤ)) : ℚ) * 60 →
      reminder_tick { reminder_enabled := true, reminder_interval := 120 } 0 3600
        = (0, false)) ∧
    ((((120 : ℤ)) : ℚ) * 60 ≤ (3600 : ℚ) - 0 →
      reminder_tick { reminder_enabled := true, reminder_interval := 120 } 0 3600
        = (3600, true)) :=
  C7_amended
    { running := true,
      config := { reminder_enabled := true, reminder_interval := 60 },
      last_reminder := 5 } true 120
    { reminder_enabled := true, reminder_interval := 120 } 0 3600 rfl

/-- Claim C8: when the platform does not support gamma ramp control,
set_gamma, restore_default and cleanup all return failure (False) without
touching the controller state, and are total (no exception). -/
theorem C8_unsupported_noop (ctrl : GammaController) (temperature : ℝ)
    (brightness : ℤ) (compensate sinkOk : Bool)
    (h : ctrl.supported = false) :
    set_gamma ctrl temperature brightness compensate sinkOk = (false, ctrl) ∧
    restore_default ctrl sinkOk = (false, ctrl) ∧
    cleanup ctrl sinkOk = ctrl := by
  have hs : ¬ ctrl.supported = true := by
    rw [h]
    exact Bool.false_ne_true
  refine ⟨?_, ?_, ?_⟩
  · unfold set_gamma
    rw [if_neg hs]
  · unfold restore_default set_gamma
    rw [if_neg hs]
  · unfold cleanup
    rw [if_neg hs]

/-- Claim C8 (witness): an unsupported controller with a pending request. -/
theorem C8_witness :
    set_gamma { supported := false, installedRamp := none } 3400 80 true true
      = (false, { supported := false, installedRamp := none }) ∧
    restore_default { supported := false, installedRamp := none } true
      = (false, { supported := false, installedRamp := none }) ∧
    cleanup { supported := false, installedRamp := none } true
      = { supported := false, installedRamp := none } :=
  C8_unsupported_noop { supported := false, installedRamp := none } 3400 80 true true rfl

/-- Claim C9: with compensate_brightness true, luminance compensation is
applied exactly when the temperature is strictly below 6500 and the
perceptual luminance of the raw ratio is strictly positive (the threshold
is L > 0, not L > 0.01); for temperatures of 6500 and above — and for a
non-positive luminance — the adjusted ratio is the raw kelvin-to-rgb
ratio unchanged; when compensation applies, each channel is multiplied by
min(1.5, 1/L) and then capped at 1.0. -/
theorem C9_compensation (temperature : ℝ) :
    (6500 ≤ temperature →
      compensated temperature true = kelvin_to_rgb temperature) ∧
    (temperature < 6500 →
      calculate_luminance (kelvin_to_rgb temperature).1
        (kelvin_to_rgb temperature).2.1 (kelvin_to_rgb temperature).2.2 ≤ 0 →
      compensated temperature true = kelvin_to_rgb temperature) ∧
    (temperature < 6500 →
      0 < calculate_luminance (kelvin_to_rgb temperature).1
        (kelvin_to_rgb temperature).2.1 (kelvin_to_rgb temperature).2.2 →
      compensated temperature true =
        (min 1 ((kelvin_to_rgb temperature).1 *
            min 1.5 (1 / calculate_luminance (kelvin_to_rgb temperature).1
              (kelvin_to_rgb temperature).2.1 (kelvin_to_rgb temperature).2.2)),
         min 1 ((kelvin_to_rgb temperature).2.1 *
            min 1.5 (1 / calculate_luminance (kelvin_to_rgb temperature).1
              (kelvin_to_rgb temperature).2.1 (kelvin_to_rgb temperature).2.2)),
         min 1 ((kelvin_to_rgb temperature).2.2 *
            min 1.5 (1 / calculate_luminance (kelvin_to_rgb temperature).1
              (kelvin_to_rgb temperature).2.1 (kelvin_to_rgb temperature).2.2)))) := by
  refine ⟨?_, ?_, ?_⟩
  · intro h
    unfold compensated
    rw [if_neg]
    intro hand
    exact absurd hand.2 (not_lt.mpr h)
  · intro hlt hL
    unfold compensated
    rw [if_pos ⟨rfl, hlt⟩, if_neg (not_lt.mpr hL)]
  · intro hlt hL
    unfold compensated
    rw [if_pos ⟨rfl, hlt⟩, if_pos hL, calculate_luminance_one]

/-- Claim C9 (witness): at 1000K the raw ratio is (1, 0, 0) with
luminance 0.2126, so the compensation factor is min(1.5, 1/0.2126) = 1.5
and the adjusted ratio is (min 1 1.5, 0, 0) = (1, 0, 0). -/
theorem C9_witness : compensated 1000 true = (1, 0, 0) := by
  have h := (C9_compensation 1000).2.2 (by norm_num)
    (by rw [kelvin_to_rgb_at_1000]; unfold calculate_luminance; norm_num)
  rw [kelvin_to_rgb_at_1000] at h
  rw [h]
  unfold calculate_luminance
  norm_num
